import Mathlib

/-!
# Verification of the `Unit` denomination-conversion value type

Shallow embedding of `lib/unit.js` from the bitcore-lib (blackcoin) repository.

Numeric amounts are modelled as exact rationals (`ℚ`).  JavaScript's
`x.toFixed(d)` / `parseFloat` pipeline is modelled as rounding to `d` decimal
places with ties away from zero, the explicit deterministic rule the
specification fixes for this design (spec §4.2 step 4 and §9).  Errors thrown
by the JavaScript code are modelled with `Except`.
-/

namespace Blackcore

/-- Round a rational to the nearest integer, ties away from zero.
Models `parseInt(x.toFixed())` on an exact value: `toFixed` picks the nearest
integer and on a tie the one larger in absolute value. -/
def roundHalfAway (q : ℚ) : ℤ :=
  if 0 ≤ q then ⌊q + 1/2⌋ else ⌈q - 1/2⌉

/-- Model of `parseFloat(x.toFixed(d))`: round `q` to `d` decimal places,
ties away from zero. -/
def toFixedQ (d : ℕ) (q : ℚ) : ℚ :=
  (roundHalfAway (q * 10 ^ d) : ℚ) / 10 ^ d

/-- The denomination table `UNITS` from `lib/unit.js`:
code ↦ (scale in ratoshis per code-unit, display precision). -/
def UNITS : List (String × ℚ × ℕ) :=
  [("BLK", 100000000, 8),
   ("mBLK", 100000, 5),
   ("uBLK", 100, 2),
   ("ratoshis", 1, 0)]

/-- Lookup among the own entries of the `UNITS` literal: the four table rows.
The JS access `UNITS[code]` is truthy on strictly more codes than this,
because an object literal also sees the properties it inherits from
`Object.prototype`; that truthiness is `unitsTruthy` below. -/
def lookupUnit (code : String) : Option (ℚ × ℕ) :=
  (UNITS.find? (fun e => e.1 == code)).map (fun e => e.2)

/-- The own property names of `Object.prototype` in a standard JS runtime.
An object literal such as `UNITS` inherits all of them, so for these keys the
access `UNITS[code]` yields a truthy inherited value (a function, or an
object for `__proto__`) even though they are not table entries. -/
def objectProtoKeys : List String :=
  ["constructor", "hasOwnProperty", "isPrototypeOf", "propertyIsEnumerable",
   "toLocaleString", "toString", "valueOf", "__proto__",
   "__defineGetter__", "__defineSetter__", "__lookupGetter__", "__lookupSetter__"]

/-- Truthiness of the JavaScript access `UNITS[code]`: true for the four own
keys of the literal and for the property names inherited from
`Object.prototype`. -/
def unitsTruthy (code : String) : Bool :=
  (lookupUnit code).isSome || objectProtoKeys.contains code

/-- The error kinds raised by `lib/unit.js`: `errors.Unit.InvalidRate`,
`errors.Unit.UnknownCode`, and the generic precondition failure raised by
`$.checkArgument`. -/
inductive UnitError
  | InvalidRate (rate : ℚ)
  | UnknownCode (code : String)
  | InvalidArgument (message : String)
deriving DecidableEq, Repr

/-- The second constructor argument of `Unit(amount, code)`: either a
denomination code (a string) or an exchange rate (a number). -/
inductive CodeOrRate
  | code (c : String)
  | rate (r : ℚ)
deriving DecidableEq, Repr

/-- An instance of `Unit`: its single data field `_value`, the signed integer
count of ratoshis computed at construction. -/
structure Unit where
  _value : ℤ
deriving DecidableEq, Repr

/-- `Unit.prototype._from(amount, code)` restricted to codes that are not
inherited `Object.prototype` property names: the guard `!UNITS[code]` throws
`UnknownCode` on a miss, and otherwise the method returns
`parseInt((amount * UNITS[code][0]).toFixed())`.  The behavior on the full
string-key domain, where an inherited key slips past the guard and stores
NaN, is `Unit._fromJS` below. -/
def Unit._from (amount : ℚ) (code : String) : Except UnitError ℤ :=
  match lookupUnit code with
  | none => .error (.UnknownCode code)
  | some su => .ok (roundHalfAway (amount * su.1))

/-- `Unit.prototype._from(amount, code)` on the full string-key domain, with
`none` standing for a NaN result.  `!UNITS[code]` is falsy only when `code`
is neither an own key of `UNITS` nor inherited from `Object.prototype`; an
inherited key passes the guard, `UNITS[code][0]` is `undefined`, and
`parseInt((amount * undefined).toFixed())` is NaN — stored, not thrown. -/
def Unit._fromJS (amount : ℚ) (code : String) : Except UnitError (Option ℤ) :=
  if unitsTruthy code then
    match lookupUnit code with
    | some su => .ok (some (roundHalfAway (amount * su.1)))
    | none => .ok none
  else .error (.UnknownCode code)

/-- The constructor body `function Unit(amount, code)` (after the
`instanceof` guard): a numeric `code` is an exchange rate — non-positive
rates throw `InvalidRate`, otherwise `amount` becomes `amount / code` and the
code becomes the primary code BLK; then `this._value = this._from(amount, code)`. -/
def Unit.construct (amount : ℚ) (target : CodeOrRate) : Except UnitError Unit :=
  match target with
  | .rate r =>
      if r ≤ 0 then .error (.InvalidRate r)
      else (Unit._from (amount / r) "BLK").map Unit.mk
  | .code c => (Unit._from amount c).map Unit.mk

/-- Calling `Unit(amount, code)` without `new`: lines 40–41 of `unit.js`
detect `!(this instanceof Unit)` and delegate to `new Unit(amount, code)`. -/
def Unit.callAsFunction (amount : ℚ) (target : CodeOrRate) : Except UnitError Unit :=
  Unit.construct amount target

/-- The `BLK` accessor installed on every instance: `self.to(Unit.BLK)`,
i.e. `parseFloat((this._value / 1e8).toFixed(8))`. -/
def Unit.BLK (u : Unit) : ℚ :=
  toFixedQ 8 ((u._value : ℚ) / 100000000)

/-- `Unit.prototype.to(code)`: for a numeric `code` (a rate), non-positive
rates throw `InvalidRate` and otherwise the result is
`parseFloat((this.BLK * code).toFixed(2))`; for a string code, a table miss
throws `UnknownCode` and otherwise the result is
`parseFloat((this._value / UNITS[code][0]).toFixed(UNITS[code][1]))`.
String codes are restricted to those that are not inherited
`Object.prototype` property names; the full-domain behavior on string codes,
where an inherited key yields NaN instead of a throw, is `Unit.toCodeJS`. -/
def Unit.to (u : Unit) (target : CodeOrRate) : Except UnitError ℚ :=
  match target with
  | .rate r =>
      if r ≤ 0 then .error (.InvalidRate r)
      else .ok (toFixedQ 2 (u.BLK * r))
  | .code c =>
      match lookupUnit c with
      | none => .error (.UnknownCode c)
      | some su => .ok (toFixedQ su.2 ((u._value : ℚ) / su.1))

/-- `Unit.prototype.to` on the full string-key domain, with `none` standing
for a NaN result: an inherited `Object.prototype` key passes the truthiness
guard, `this._value / UNITS[code][0]` divides by `undefined` giving NaN, and
`parseFloat(NaN.toFixed(UNITS[code][1]))` is NaN — returned, not thrown. -/
def Unit.toCodeJS (u : Unit) (code : String) : Except UnitError (Option ℚ) :=
  if unitsTruthy code then
    match lookupUnit code with
    | some su => .ok (some (toFixedQ su.2 ((u._value : ℚ) / su.1)))
    | none => .ok none
  else .error (.UnknownCode code)

/-- `Unit.prototype.to` with the instance state threaded explicitly: the
method body reads `this.BLK` and `this._value` but contains no assignment,
so each branch returns the state it received. -/
def Unit.toMut (u : Unit) (target : CodeOrRate) : Unit × Except UnitError ℚ :=
  match target with
  | .rate r =>
      if r ≤ 0 then (u, .error (.InvalidRate r))
      else (u, .ok (toFixedQ 2 (u.BLK * r)))
  | .code c =>
      match lookupUnit c with
      | none => (u, .error (.UnknownCode c))
      | some su => (u, .ok (toFixedQ su.2 ((u._value : ℚ) / su.1)))

/-- `Unit.prototype.toBLK()`, a pure alias of `to(Unit.BLK)`. -/
def Unit.toBLK (u : Unit) : Except UnitError ℚ := u.to (.code "BLK")

/-- `Unit.prototype.toMillis()`, a pure alias of `to(Unit.mBLK)`. -/
def Unit.toMillis (u : Unit) : Except UnitError ℚ := u.to (.code "mBLK")

/-- `Unit.prototype.toMicros()`, a pure alias of `to(Unit.uBLK)`. -/
def Unit.toMicros (u : Unit) : Except UnitError ℚ := u.to (.code "uBLK")

/-- `Unit.prototype.toRatoshis()`, a pure alias of `to(Unit.ratoshis)`. -/
def Unit.toRatoshis (u : Unit) : Except UnitError ℚ := u.to (.code "ratoshis")

/-- `Unit.prototype.atRate(rate)`: `return this.to(rate)`. -/
def Unit.atRate (u : Unit) (rate : ℚ) : Except UnitError ℚ := u.to (.rate rate)

/-- `Unit.fromBLK(amount)`: `new Unit(amount, Unit.BLK)`. -/
def Unit.fromBLK (amount : ℚ) : Except UnitError Unit :=
  Unit.construct amount (.code "BLK")

/-- `Unit.fromMillis(amount)`: `new Unit(amount, Unit.mBLK)`. -/
def Unit.fromMillis (amount : ℚ) : Except UnitError Unit :=
  Unit.construct amount (.code "mBLK")

/-- `Unit.fromMicros(amount)`: `new Unit(amount, Unit.uBLK)`. -/
def Unit.fromMicros (amount : ℚ) : Except UnitError Unit :=
  Unit.construct amount (.code "uBLK")

/-- `Unit.fromRatoshis(amount)`: `new Unit(amount, Unit.ratoshis)`. -/
def Unit.fromRatoshis (amount : ℚ) : Except UnitError Unit :=
  Unit.construct amount (.code "ratoshis")

/-- `Unit.fromFiat(amount, rate)`: `new Unit(amount, rate)`. -/
def Unit.fromFiat (amount rate : ℚ) : Except UnitError Unit :=
  Unit.construct amount (.rate rate)

/-- The argument passed to `Unit.fromObject`: either not an object at all, or
an object whose `amount` field holds a number and whose `code` field is
present (`some`) or missing (`none`; reading it yields `undefined`). -/
inductive JSArg
  | notObject
  | object (amount : ℚ) (code : Option CodeOrRate)
deriving DecidableEq, Repr

/-- `Unit.fromObject(data)`: `$.checkArgument(_.isObject(data), ...)` then
`new Unit(data.amount, data.code)`.  A missing `code` field reads as
`undefined`, which is not a number and indexes `UNITS` as the absent key
"undefined". -/
def Unit.fromObject (data : JSArg) : Except UnitError Unit :=
  match data with
  | .notObject => .error (.InvalidArgument "Argument is expected to be an object")
  | .object amount code =>
      Unit.construct amount (code.getD (.code "undefined"))

/-- The shape returned by `Unit.prototype.toObject`. -/
structure UnitObject where
  amount : ℚ
  code : String
deriving DecidableEq, Repr

/-- `Unit.prototype.toObject()` (alias `toJSON`):
`{amount: this.BLK, code: Unit.BLK}`. -/
def Unit.toObject (u : Unit) : UnitObject :=
  { amount := u.BLK, code := "BLK" }

/-- Specification-side characterization of "round half away from zero":
`m` is within half a unit of `q`, and on an exact tie `m` is the candidate
farther from zero. -/
def IsRoundHalfAwayFromZero (q : ℚ) (m : ℤ) : Prop :=
  |(m : ℚ) - q| ≤ 1/2 ∧ (|(m : ℚ) - q| = 1/2 → |q| < |(m : ℚ)|)

end Blackcore

namespace Blackcore

lemma lookupUnit_BLK : lookupUnit "BLK" = some (100000000, 8) := by decide

lemma lookupUnit_mBLK : lookupUnit "mBLK" = some (100000, 5) := by decide

lemma lookupUnit_uBLK : lookupUnit "uBLK" = some (100, 2) := by decide

lemma lookupUnit_ratoshis : lookupUnit "ratoshis" = some (1, 0) := by decide

lemma lookupUnit_undefined : lookupUnit "undefined" = none := by decide

lemma roundHalfAway_intCast (n : ℤ) : roundHalfAway (n : ℚ) = n := by
  unfold roundHalfAway
  split
  · rw [show ((n : ℚ) + 1/2) = (1/2 : ℚ) + (n : ℤ) by ring, Int.floor_add_int]
    norm_num
  · rw [show ((n : ℚ) - 1/2) = (-(1/2) : ℚ) + (n : ℤ) by ring, Int.ceil_add_int]
    norm_num

lemma abs_roundHalfAway_sub (q : ℚ) : |(roundHalfAway q : ℚ) - q| ≤ 1/2 := by
  unfold roundHalfAway
  split
  · have h1 : ((⌊q + 1/2⌋ : ℤ) : ℚ) ≤ q + 1/2 := Int.floor_le _
    have h2 : q + 1/2 < (⌊q + 1/2⌋ : ℤ) + 1 := Int.lt_floor_add_one _
    rw [abs_le]
    constructor <;> linarith
  · have h1 : q - 1/2 ≤ ((⌈q - 1/2⌉ : ℤ) : ℚ) := Int.le_ceil _
    have h2 : ((⌈q - 1/2⌉ : ℤ) : ℚ) < (q - 1/2) + 1 := Int.ceil_lt_add_one _
    rw [abs_le]
    constructor <;> linarith

lemma roundHalfAway_isSpec (q : ℚ) : IsRoundHalfAwayFromZero q (roundHalfAway q) := by
  refine ⟨abs_roundHalfAway_sub q, fun htie => ?_⟩
  unfold roundHalfAway at htie ⊢
  rcases (abs_eq (by norm_num : (0:ℚ) ≤ 1/2)).mp htie with heq | heq
  · split at heq
    · have hq : 0 ≤ q := by assumption
      have hm : ((⌊q + 1/2⌋ : ℤ) : ℚ) = q + 1/2 := by linarith
      simp only [if_pos hq]
      rw [abs_of_nonneg hq, abs_of_pos (by linarith : (0:ℚ) < ((⌊q + 1/2⌋ : ℤ) : ℚ))]
      linarith
    · have hq : ¬ (0 ≤ q) := by assumption
      have h2 : ((⌈q - 1/2⌉ : ℤ) : ℚ) < (q - 1/2) + 1 := Int.ceil_lt_add_one _
      linarith [lt_of_not_le hq]
  · split at heq
    · have hq : 0 ≤ q := by assumption
      have h2 : q + 1/2 < (⌊q + 1/2⌋ : ℤ) + 1 := Int.lt_floor_add_one _
      linarith
    · have hq : ¬ (0 ≤ q) := by assumption
      have hqneg : q < 0 := lt_of_not_le hq
      have hm : ((⌈q - 1/2⌉ : ℤ) : ℚ) = q - 1/2 := by linarith
      simp only [if_neg hq]
      rw [abs_of_neg hqneg, abs_of_neg (by linarith : ((⌈q - 1/2⌉ : ℤ) : ℚ) < 0)]
      linarith

lemma abs_toFixedQ_sub (d : ℕ) (q : ℚ) : |toFixedQ d q - q| ≤ 1 / (2 * 10 ^ d) := by
  unfold toFixedQ
  have hp : (0:ℚ) < 10 ^ d := by positivity
  have h := abs_roundHalfAway_sub (q * 10 ^ d)
  rw [show ((roundHalfAway (q * 10 ^ d) : ℚ) / 10 ^ d - q)
        = ((roundHalfAway (q * 10 ^ d) : ℚ) - q * 10 ^ d) / 10 ^ d by field_simp; ring]
  rw [abs_div, abs_of_pos hp, div_le_div_iff₀ hp (by positivity)]
  calc |((roundHalfAway (q * 10 ^ d) : ℤ) : ℚ) - q * 10 ^ d| * (2 * 10 ^ d)
      ≤ (1/2) * (2 * 10 ^ d) := by
        apply mul_le_mul_of_nonneg_right h (by positivity)
    _ = 1 * 10 ^ d := by ring

lemma toFixedQ_of_intMul {d : ℕ} {q : ℚ} (n : ℤ) (h : q * 10 ^ d = n) : toFixedQ d q = q := by
  unfold toFixedQ
  rw [h, roundHalfAway_intCast, ← h, mul_div_cancel_right₀]
  positivity

lemma Unit.BLK_eq (u : Unit) : u.BLK = (u._value : ℚ) / 100000000 := by
  unfold Unit.BLK
  apply toFixedQ_of_intMul u._value
  norm_num

end Blackcore

namespace Blackcore

/-- Claim C1: constructing from any amount and recognized code computes
`rawUnits = amount * scale` and stores `roundHalfAway rawUnits`, the nearest
integer with ties away from zero. -/
theorem construct_rounds_half_away_from_zero (amount : ℚ) (code : String)
    (scale : ℚ) (prec : ℕ) (h : lookupUnit code = some (scale, prec)) :
    Unit.construct amount (CodeOrRate.code code)
      = Except.ok ⟨roundHalfAway (amount * scale)⟩ ∧
    IsRoundHalfAwayFromZero (amount * scale) (roundHalfAway (amount * scale)) := by
  refine ⟨?_, roundHalfAway_isSpec _⟩
  simp [Unit.construct, Unit._from, h, Except.map]

/-- Witness for C1 at a primary-unit amount with nine fractional digits. -/
theorem construct_rounds_half_away_from_zero_witness :
    Unit.construct ((1234567895 : ℚ)/1000000000) (CodeOrRate.code "BLK")
      = Except.ok ⟨roundHalfAway (((1234567895 : ℚ)/1000000000) * 100000000)⟩ ∧
    IsRoundHalfAwayFromZero (((1234567895 : ℚ)/1000000000) * 100000000)
      (roundHalfAway (((1234567895 : ℚ)/1000000000) * 100000000)) :=
  construct_rounds_half_away_from_zero ((1234567895 : ℚ)/1000000000) "BLK"
    100000000 8 (by decide)

/-- Claim C2: a zero or negative rate is rejected with `InvalidRate` carrying
the offending rate, in fiat-form construction and in conversion alike. -/
theorem invalid_rate_rejection (amount r : ℚ) (u : Unit) (h : r ≤ 0) :
    Unit.fromFiat amount r = Except.error (UnitError.InvalidRate r) ∧
    Unit.construct amount (CodeOrRate.rate r) = Except.error (UnitError.InvalidRate r) ∧
    u.atRate r = Except.error (UnitError.InvalidRate r) ∧
    u.to (CodeOrRate.rate r) = Except.error (UnitError.InvalidRate r) := by
  simp [Unit.fromFiat, Unit.construct, Unit.atRate, Unit.to, h]

/-- Witness for C2 at rate 0. -/
theorem invalid_rate_rejection_witness :
    Unit.fromFiat 1 0 = Except.error (UnitError.InvalidRate 0) ∧
    Unit.construct 1 (CodeOrRate.rate 0) = Except.error (UnitError.InvalidRate 0) ∧
    Unit.atRate ⟨5⟩ 0 = Except.error (UnitError.InvalidRate 0) ∧
    Unit.to ⟨5⟩ (CodeOrRate.rate 0) = Except.error (UnitError.InvalidRate 0) :=
  invalid_rate_rejection 1 0 ⟨5⟩ (by norm_num)

lemma protoKeys_not_entries : ∀ p ∈ objectProtoKeys, lookupUnit p = none := by decide

lemma fromJS_agrees (amount : ℚ) (code : String)
    (h : objectProtoKeys.contains code = false) :
    Unit._fromJS amount code = (Unit._from amount code).map some := by
  have h' : code ∉ objectProtoKeys := by simpa using h
  cases hlk : lookupUnit code with
  | some su => simp [Unit._fromJS, Unit._from, unitsTruthy, hlk, Except.map]
  | none => simp [Unit._fromJS, Unit._from, unitsTruthy, hlk, h', Except.map]

lemma toCodeJS_agrees (u : Unit) (code : String)
    (h : objectProtoKeys.contains code = false) :
    u.toCodeJS code = (u.to (CodeOrRate.code code)).map some := by
  have h' : code ∉ objectProtoKeys := by simpa using h
  cases hlk : lookupUnit code with
  | some su => simp [Unit.toCodeJS, Unit.to, unitsTruthy, hlk, Except.map]
  | none => simp [Unit.toCodeJS, Unit.to, unitsTruthy, hlk, h', Except.map]

/-- Claim C3 (counterexample): the code toString is not one of the four
recognized entries, yet neither construction nor conversion fails with
`UnknownCode` there — `UNITS` inherits a truthy toString from
`Object.prototype`, so the guard passes and both operations produce a
NaN-valued result instead of throwing. -/
theorem unknown_code_counterexample :
    lookupUnit "toString" = none ∧
    Unit._fromJS 5 "toString" = Except.ok none ∧
    Unit.toCodeJS ⟨5⟩ "toString" = Except.ok none ∧
    Unit._fromJS 5 "toString" ≠ Except.error (UnitError.UnknownCode "toString") ∧
    Unit.toCodeJS ⟨5⟩ "toString" ≠ Except.error (UnitError.UnknownCode "toString") := by
  refine ⟨by decide, ?_, ?_, ?_, ?_⟩ <;>
    simp [Unit._fromJS, Unit.toCodeJS, unitsTruthy, lookupUnit, UNITS, objectProtoKeys]

/-- Claim C3 (amended): a code that is neither one of the four recognized
entries nor an inherited `Object.prototype` property name is always rejected
with `UnknownCode` carrying the offending code, in construction and
conversion alike; an inherited property name instead passes the guard and
both operations return a NaN-valued result without failing. -/
theorem unknown_code_rejection (amount : ℚ) (c : String) (u : Unit)
    (h : unitsTruthy c = false) :
    (Unit._fromJS amount c = Except.error (UnitError.UnknownCode c) ∧
     Unit.toCodeJS u c = Except.error (UnitError.UnknownCode c) ∧
     Unit.construct amount (CodeOrRate.code c) = Except.error (UnitError.UnknownCode c) ∧
     u.to (CodeOrRate.code c) = Except.error (UnitError.UnknownCode c)) ∧
    ∀ p, objectProtoKeys.contains p = true →
      Unit._fromJS amount p = Except.ok none ∧ Unit.toCodeJS u p = Except.ok none := by
  have hnone : lookupUnit c = none := by
    cases hlk : lookupUnit c with
    | none => rfl
    | some su => simp [unitsTruthy, hlk] at h
  refine ⟨⟨?_, ?_, ?_, ?_⟩, ?_⟩
  · simp [Unit._fromJS, h]
  · simp [Unit.toCodeJS, h]
  · simp [Unit.construct, Unit._from, hnone, Except.map]
  · simp [Unit.to, hnone]
  · intro p hp
    have hp' : p ∈ objectProtoKeys := by simpa using hp
    have hpn : lookupUnit p = none := protoKeys_not_entries p hp'
    constructor
    · simp [Unit._fromJS, unitsTruthy, hp', hpn]
    · simp [Unit.toCodeJS, unitsTruthy, hp', hpn]

/-- Witness for C3 at the unrecognized, non-inherited code USD. -/
theorem unknown_code_rejection_witness :
    unitsTruthy "USD" = false ∧
    ((Unit._fromJS 1 "USD" = Except.error (UnitError.UnknownCode "USD") ∧
      Unit.toCodeJS ⟨5⟩ "USD" = Except.error (UnitError.UnknownCode "USD") ∧
      Unit.construct 1 (CodeOrRate.code "USD") = Except.error (UnitError.UnknownCode "USD") ∧
      Unit.to ⟨5⟩ (CodeOrRate.code "USD") = Except.error (UnitError.UnknownCode "USD")) ∧
     ∀ p, objectProtoKeys.contains p = true →
       Unit._fromJS 1 p = Except.ok none ∧ Unit.toCodeJS ⟨5⟩ p = Except.ok none) :=
  ⟨by decide, unknown_code_rejection 1 "USD" ⟨5⟩ (by decide)⟩

/-- Claim C4: the three denomination round trips are exact. -/
theorem round_trips_exact :
    (Unit.fromBLK 1).bind Unit.toRatoshis = Except.ok 100000000 ∧
    (Unit.fromRatoshis 100000000).bind Unit.toBLK = Except.ok 1 ∧
    (Unit.fromMicros 1000000).bind Unit.toBLK = Except.ok 1 := by
  refine ⟨?_, ?_, ?_⟩
  · norm_num [Unit.fromBLK, Unit.construct, Unit._from, lookupUnit_BLK, lookupUnit_ratoshis,
      Unit.toRatoshis, Unit.to, toFixedQ, roundHalfAway, Unit.BLK, Except.bind, Except.map]
  · norm_num [Unit.fromRatoshis, Unit.construct, Unit._from, lookupUnit_BLK, lookupUnit_ratoshis,
      Unit.toBLK, Unit.to, toFixedQ, roundHalfAway, Unit.BLK, Except.bind, Except.map]
  · norm_num [Unit.fromMicros, Unit.construct, Unit._from, lookupUnit_BLK, lookupUnit_uBLK,
      Unit.toBLK, Unit.to, toFixedQ, roundHalfAway, Unit.BLK, Except.bind, Except.map]

/-- Claim C5: whatever denomination or rate was used to construct a value,
`toObject` returns exactly the BLK amount together with the code BLK. -/
theorem toObject_normalizes (amount : ℚ) (target : CodeOrRate) (u : Unit)
    (h : Unit.construct amount target = Except.ok u) :
    u.toObject.code = "BLK" ∧ u.to (CodeOrRate.code "BLK") = Except.ok u.toObject.amount := by
  refine ⟨rfl, ?_⟩
  simp [Unit.to, lookupUnit_BLK, Unit.toObject, Unit.BLK]

/-- Witness for C5: a value constructed in ratoshis serializes with code BLK. -/
theorem toObject_normalizes_witness :
    (Unit.toObject ⟨100⟩).code = "BLK" ∧
    Unit.to ⟨100⟩ (CodeOrRate.code "BLK") = Except.ok (Unit.toObject ⟨100⟩).amount :=
  toObject_normalizes 100 (CodeOrRate.code "ratoshis") ⟨100⟩
    (by norm_num [Unit.construct, Unit._from, lookupUnit_ratoshis, roundHalfAway, Except.map])

end Blackcore

namespace Blackcore

/-- Claim C6 (counterexample): an object argument whose code field is missing
passes the precondition check and fails with the domain error
`UnknownCode undefined`, not with the generic argument-precondition error. -/
theorem fromObject_missing_code_counterexample :
    Unit.fromObject (JSArg.object 5 none) = Except.error (UnitError.UnknownCode "undefined") ∧
    Unit.fromObject (JSArg.object 5 none)
      ≠ Except.error (UnitError.InvalidArgument "Argument is expected to be an object") := by
  constructor
  · simp [Unit.fromObject, Unit.construct, Unit._from, lookupUnit_undefined, Option.getD,
      Except.map]
  · simp [Unit.fromObject, Unit.construct, Unit._from, lookupUnit_undefined, Option.getD,
      Except.map]

/-- Claim C6 (amended): `fromObject` raises the generic argument-precondition
error exactly when the argument is not an object; an object argument is passed
straight to the constructor, with a missing code field read as undefined, so
missing fields reach domain validation instead of the precondition. -/
theorem fromObject_precondition (amount : ℚ) (code : Option CodeOrRate) :
    Unit.fromObject JSArg.notObject
      = Except.error (UnitError.InvalidArgument "Argument is expected to be an object") ∧
    Unit.fromObject (JSArg.object amount code)
      = Unit.construct amount (code.getD (CodeOrRate.code "undefined")) :=
  ⟨rfl, rfl⟩

/-- Claim C7: at a positive rate, `to` returns the BLK value times the rate,
rounded to two decimal places; `atRate` is a pure alias of `to`; and the BLK
value is exactly `magnitude / 100000000`. -/
theorem to_rate_formula (u : Unit) (r : ℚ) (h : 0 < r) :
    u.to (CodeOrRate.rate r) = Except.ok (toFixedQ 2 (((u._value : ℚ) / 100000000) * r)) ∧
    u.atRate r = u.to (CodeOrRate.rate r) ∧
    u.BLK = (u._value : ℚ) / 100000000 := by
  have hb := Unit.BLK_eq u
  refine ⟨?_, rfl, hb⟩
  simp [Unit.to, if_neg (not_le.mpr h), hb]

/-- Witness for C7 at magnitude 150000000 and rate 350. -/
theorem to_rate_formula_witness :
    Unit.to ⟨150000000⟩ (CodeOrRate.rate 350)
      = Except.ok (toFixedQ 2 ((((150000000 : ℤ) : ℚ) / 100000000) * 350)) ∧
    Unit.atRate ⟨150000000⟩ 350 = Unit.to ⟨150000000⟩ (CodeOrRate.rate 350) ∧
    Unit.BLK ⟨150000000⟩ = ((150000000 : ℤ) : ℚ) / 100000000 :=
  to_rate_formula ⟨150000000⟩ 350 (by norm_num)

/-- Claim C8 (counterexample): at rate 100000000 the fiat amount 3/10 maps to
magnitude 0, so the round trip returns 0, which is not within two-decimal
rounding distance of 3/10. -/
theorem fiat_round_trip_counterexample :
    (Unit.fromFiat (3/10) 100000000).bind (fun u => u.atRate 100000000) = Except.ok 0 ∧
    ¬ (|(0 : ℚ) - 3/10| ≤ 1/100) := by
  constructor
  · norm_num [Unit.fromFiat, Unit.construct, Unit._from, lookupUnit_BLK, Unit.atRate,
      Unit.to, toFixedQ, roundHalfAway, Unit.BLK, Except.bind, Except.map]
  · simp only [zero_sub, abs_neg]
    rw [abs_of_nonneg (by norm_num : (0:ℚ) ≤ 3/10)]
    norm_num

/-- Claim C8 (amended): the fiat round trip is accurate up to the final
two-decimal rounding plus the atomic-unit quantization scaled by the rate:
for positive `R`, `|atRate R - A| ≤ 1/200 + R / 200000000`. -/
theorem fiat_round_trip_tolerance (A R : ℚ) (u : Unit) (hR : 0 < R)
    (hu : Unit.fromFiat A R = Except.ok u) :
    ∃ v, u.atRate R = Except.ok v ∧ |v - A| ≤ 1/200 + R / 200000000 := by
  have hval : Unit.mk (roundHalfAway (A / R * 100000000)) = u := by
    simpa [Unit.fromFiat, Unit.construct, if_neg (not_le.mpr hR), Unit._from,
      lookupUnit_BLK, Except.map] using hu
  subst hval
  set m : ℤ := roundHalfAway (A / R * 100000000) with hm
  have hBLK : (Unit.mk m).BLK = (m : ℚ) / 100000000 := Unit.BLK_eq _
  refine ⟨toFixedQ 2 ((m : ℚ) / 100000000 * R), ?_, ?_⟩
  · simp [Unit.atRate, Unit.to, if_neg (not_le.mpr hR), hBLK]
  · have h1 : |(m : ℚ) - A / R * 100000000| ≤ 1/2 := abs_roundHalfAway_sub _
    have h2 := abs_toFixedQ_sub 2 ((m : ℚ) / 100000000 * R)
    norm_num at h2
    have hRne : R ≠ 0 := ne_of_gt hR
    have h3 : (m : ℚ) / 100000000 * R - A
        = ((m : ℚ) - A / R * 100000000) * (R / 100000000) := by
      field_simp
      ring
    have h4 : |(m : ℚ) / 100000000 * R - A| ≤ R / 200000000 := by
      rw [h3, abs_mul, abs_of_pos (by positivity : (0:ℚ) < R / 100000000)]
      calc |(m : ℚ) - A / R * 100000000| * (R / 100000000)
          ≤ (1/2) * (R / 100000000) :=
            mul_le_mul_of_nonneg_right h1 (by positivity)
        _ = R / 200000000 := by ring
    calc |toFixedQ 2 ((m : ℚ) / 100000000 * R) - A|
        ≤ |toFixedQ 2 ((m : ℚ) / 100000000 * R) - (m : ℚ) / 100000000 * R|
          + |(m : ℚ) / 100000000 * R - A| := abs_sub_le _ _ _
      _ ≤ 1/200 + R / 200000000 := add_le_add h2 h4

/-- Witness for C8's amended tolerance at fiat amount 13/10 and rate 350. -/
theorem fiat_round_trip_tolerance_witness :
    (0 : ℚ) < 350 ∧
    ∃ v, Unit.atRate ⟨371429⟩ 350 = Except.ok v ∧
      |v - 13/10| ≤ 1/200 + 350 / 200000000 :=
  ⟨by norm_num,
   fiat_round_trip_tolerance (13/10) 350 ⟨371429⟩ (by norm_num)
     (by norm_num [Unit.fromFiat, Unit.construct, Unit._from, lookupUnit_BLK,
       roundHalfAway, Except.map])⟩

/-- Claim C9: `to`, threaded with explicit instance state, never changes the
state: the returned instance is the receiver, the result agrees with the pure
`to`, and a repeated invocation returns the same pair. -/
theorem to_preserves_state (u : Unit) (target : CodeOrRate) :
    (u.toMut target).1 = u ∧
    (u.toMut target).2 = u.to target ∧
    ((u.toMut target).1.toMut target) = u.toMut target := by
  cases target with
  | rate r =>
      by_cases h : r ≤ 0 <;> simp [Unit.toMut, Unit.to, h]
  | code c =>
      cases h : lookupUnit c <;> simp [Unit.toMut, Unit.to, h]

/-- Claim C10: invoking the constructor without `new` delegates to the normal
construction and yields a value with the same magnitude and the same result
for every conversion. -/
theorem call_without_new_equivalent (amount : ℚ) (target : CodeOrRate) :
    Unit.callAsFunction amount target = Unit.construct amount target ∧
    ∀ t, (Unit.callAsFunction amount target).map (fun u => u.to t)
        = (Unit.construct amount target).map (fun u => u.to t) :=
  ⟨rfl, fun _ => rfl⟩

end Blackcore
